import Mathlib

/-!
Verification of the table-cleaning, selection, and rendering core of
`src/get_player_stats.py` (the package module; the repository also carries an
older top-level copy of the script).  The pandas DataFrame is embedded as a
header of column names plus positional rows of cells, where a cell is
`Option String` (`none` models a pandas NaN / missing value).  The external
collaborators (HTTP fetch, HTML parsing) are modelled at their boundary:
a response carries a status code and the already-extracted list of tables.
-/

/-- A cell of an extracted table: `none` models pandas NaN (a missing value),
`some s` a string value. -/
abbrev Cell := Option String

/-- One extracted stats table: ordered column names paired with ordered rows of
cells, each row aligned positionally with the header. -/
structure StatsTable where
  header : List String
  rows : List (List Cell)
deriving DecidableEq, Repr

/-- Python `str(cell)` after `astype(str)` (and in the renderer's
`str(e)`): a NaN prints as the string "nan". -/
def cellStr (c : Cell) : String := c.getD "nan"

/-- Python substring test `pat in hay`, and pandas `.str.contains(pat)` for a
plain (non-regex-special) pattern: case-sensitive substring containment. -/
def strContains (hay pat : String) : Bool := decide (List.IsInfix pat.toList hay.toList)

/-- `df[name]` evaluated at one row: the cell of the column called `name`
(`none` when the column is missing or the row is short, behaving as NaN). -/
def colCell (hdr : List String) (row : List Cell) (name : String) : Cell :=
  ((hdr.indexOf? name).bind fun i => row.get? i).join

/-- First predicate of `remove_rows`: the row survives
`df.drop(df.index[df['Lg'] != 'NBA'])`.  A NaN league compares unequal to
"NBA" in pandas, so only rows whose `Lg` cell is exactly "NBA" are kept. -/
def keep_lg (hdr : List String) (row : List Cell) : Bool :=
  colCell hdr row "Lg" == some "NBA"

/-- Second predicate of `remove_rows`: the row survives
`df.drop(df.index[df['Season'].astype(str).str.contains('season')])`.
A NaN season stringifies to "nan", which does not contain "season". -/
def keep_not_summary (hdr : List String) (row : List Cell) : Bool :=
  !(strContains (cellStr (colCell hdr row "Season")) "season")

/-- Third predicate of `remove_rows`: the row survives
`df.drop(df.index[df['Season'].isna()])`: the `Season` cell is not NaN. -/
def keep_season_present (hdr : List String) (row : List Cell) : Bool :=
  (colCell hdr row "Season").isSome

/-- `remove_rows(df)`: three sequential in-place row drops, embedded as three
sequential filters keeping the surviving rows. -/
def remove_rows (t : StatsTable) : StatsTable :=
  { t with
    rows := ((t.rows.filter (keep_lg t.header)).filter
      (keep_not_summary t.header)).filter (keep_season_present t.header) }

/-- The fixed `drop_cols` list of `remove_stats`. -/
def drop_cols : List String := ["2P", "3P", "DRB", "FG", "FT", "Lg"]

/-- A column survives `remove_stats`: it is neither in the fixed `drop_cols`
list nor a placeholder column (`'Unnamed:' in col`). -/
def keep_col (c : String) : Bool :=
  !(drop_cols.contains c || strContains c "Unnamed:")

/-- `remove_stats(df)`: drops each column of `drop_cols` (plus every
`Unnamed:` column) that is present; the remaining columns keep their order and
each row keeps the cells of the remaining columns, in order. -/
def remove_stats (t : StatsTable) : StatsTable :=
  { header := t.header.filter keep_col
    rows := t.rows.map fun r =>
      ((t.header.zip r).filter fun p => keep_col p.1).map Prod.snd }

/-- Python `str.zfill(s, 2)`: left-pad with '0' to width 2. -/
def zfill2 (s : String) : String :=
  if s.length < 2 then String.mk (List.replicate (2 - s.length) '0') ++ s else s

/-- The URL root used by `create_player_url`. -/
def base_url : String := "https://www.basketball-reference.com/players"

/-- `create_player_url(first_name, last_name, n)`.  Python `last_name[0]`
raises IndexError on an empty string, modelled by `none`; the slices
`last_name[0:5]` and `first_name[0:2]` silently truncate. -/
def create_player_url (first_name last_name : String) (n : Nat) : Option String :=
  match last_name.toList with
  | [] => none
  | c :: _ =>
    some (base_url ++ "/" ++ String.mk [c] ++ "/" ++ String.mk (last_name.toList.take 5)
      ++ String.mk (first_name.toList.take 2) ++ zfill2 (toString n) ++ ".html")

/-- Leading one-character directory segment as the claim words it:
the LOWERCASE first character of the name. -/
def lower_first_seg (s : String) : String :=
  String.mk ((s.toList.take 1).map Char.toLower)

/-- Leading one-character directory segment as the code computes it:
the first character of the name exactly as given. -/
def first_seg (s : String) : String := String.mk (s.toList.take 1)

/-- The URL pattern exactly as claim C3 words it: directory segment is the
lowercase first character of the last name, then first-5-of-last-name,
first-2-of-first-name, and the index zero-padded to 2 digits. -/
def claim_url (first_name last_name : String) (n : Nat) : String :=
  base_url ++ "/" ++ lower_first_seg last_name ++ "/"
    ++ String.mk (last_name.toList.take 5) ++ String.mk (first_name.toList.take 2)
    ++ zfill2 (toString n) ++ ".html"

/-- The amended URL pattern: as `claim_url` but with the directory segment
being the first character of the last name as given (no lowercasing). -/
def amended_url (first_name last_name : String) (n : Nat) : String :=
  base_url ++ "/" ++ first_seg last_name ++ "/"
    ++ String.mk (last_name.toList.take 5) ++ String.mk (first_name.toList.take 2)
    ++ zfill2 (toString n) ++ ".html"

/-- `table_map = {'avg': 0, 'tot': 2, 'adv': 4}`; any other key is a Python
KeyError, modelled as `none`. -/
def table_map : String → Option Nat
  | "avg" => some 0
  | "tot" => some 2
  | "adv" => some 4
  | _ => none

/-- `table_idx = table_map[stats] + int(playoffs)`. -/
def table_idx (stats : String) (playoffs : Bool) : Option Nat :=
  (table_map stats).map (· + (if playoffs then 1 else 0))

/-- `df = tables[table_idx]`: positional selection; an out-of-range index is a
Python IndexError, modelled as `none`. -/
def select_table (tables : List StatsTable) (stats : String) (playoffs : Bool) :
    Option StatsTable :=
  (table_idx stats playoffs).bind fun i => tables[i]?

/-- An HTTP response at the boundary of `get_tables`: the status code, and the
tables that `pd.read_html` would extract from its body. -/
structure Response where
  status_code : Nat
  content : List StatsTable
deriving DecidableEq

/-- Outcome of `get_tables`: either it printed the status code and called
`sys.exit()`, or it returned the extracted tables. -/
inductive GetTablesResult where
  | exit (printed_status : Nat)
  | ok (tables : List StatsTable)
deriving DecidableEq, Repr

/-- `get_tables(url)` after the fetch: on a non-200 status, print it and exit
(one fetch only, never retried); on 200, return the extracted tables. -/
def get_tables (page : Response) : GetTablesResult :=
  if page.status_code ≠ 200 then .exit page.status_code else .ok page.content

/-- The cleaning applied by `get_player_stats` to the selected table:
`remove_rows(df)` then `remove_stats(df)`. -/
def clean_df (df : StatsTable) : StatsTable := remove_stats (remove_rows df)

/-- The post-fetch core of `get_player_stats`: select the table by position,
then clean it; `none` models the unhandled IndexError when the index is out of
range (and the KeyError for an unknown stats key). -/
def get_player_stats_tables (tables : List StatsTable) (stats : String)
    (playoffs : Bool) : Option StatsTable :=
  (select_table tables stats playoffs).map clean_df

/-- Rich row styles used by `pprint_df`. -/
inductive RowStyle where
  | steel_blue1
  | bright_cyan
  | light_cyan1
deriving DecidableEq, Repr

/-- Style of one rendered row in `pprint_df`: the "Career" row gets
`steel_blue1`; otherwise even rows get `bright_cyan` and odd rows get
`light_cyan1`. -/
def row_style (i : Nat) (row : List String) : RowStyle :=
  if row.head? = some "Career" then .steel_blue1
  else if i % 2 = 0 then .bright_cyan else .light_cyan1

/-- The enumerate loop of `pprint_df`, styling each row from index `i` on. -/
def pprint_styles_from (i : Nat) : List (List String) → List RowStyle
  | [] => []
  | r :: rs => row_style i r :: pprint_styles_from (i + 1) rs

/-- Styles assigned to the rendered rows, in order, starting at index 0. -/
def pprint_styles (rows : List (List String)) : List RowStyle :=
  pprint_styles_from 0 rows

/-- `df.values.tolist()` with every cell passed through `str`. -/
def df_str_rows (t : StatsTable) : List (List String) :=
  t.rows.map fun r => r.map cellStr

/-- Python `str.capitalize`: first character uppercased, the rest lowercased. -/
def str_capitalize (s : String) : String :=
  match s.toList with
  | [] => ""
  | c :: cs => String.mk (c.toUpper :: cs.map Char.toLower)

/-- The title string built by `pprint_df`. -/
def pprint_title (first_name last_name stats : String) (playoffs : Bool) : String :=
  str_capitalize first_name ++ " " ++ str_capitalize last_name ++ " "
    ++ (if playoffs then "Playoffs" else "Regular Season") ++ " " ++ stats

/-- What `pprint_df` writes to the terminal: a title, the column headers, the
stringified rows, and the per-row styles. -/
structure Rendered where
  title : String
  columns : List String
  cells : List (List String)
  styles : List RowStyle
deriving DecidableEq, Repr

/-- `pprint_df(df, ...)` as the rendered artifact it prints. -/
def pprint_df (df : StatsTable) (first_name last_name stats : String)
    (playoffs : Bool) : Rendered :=
  { title := pprint_title first_name last_name stats playoffs
    columns := df.header
    cells := df_str_rows df
    styles := pprint_styles (df_str_rows df) }

/-- The post-fetch pipeline of `main`: `get_player_stats` then `pprint_df`;
`none` means the invocation died before rendering anything. -/
def run_pipeline (tables : List StatsTable) (first_name last_name stats : String)
    (playoffs : Bool) : Option Rendered :=
  (get_player_stats_tables tables stats playoffs).map fun df =>
    pprint_df df first_name last_name stats playoffs

/-! ## Claim C1: Row Filter on the five-row example table -/

/-- The five-row input table of claim C1 (the spec's abstract column name
"League" is the source column `Lg`). -/
def c1_table : StatsTable :=
  { header := ["Lg", "Season"]
    rows := [[some "NBA", some "2020-21"],
             [some "Spain", some "2019-20"],
             [some "NBA", some "2-team totals"],
             [none, none],
             [some "NBA", some "Career"]] }

/-- The output claim C1 predicts: only the 2020-21 row and the Career row. -/
def c1_claimed : StatsTable :=
  { header := ["Lg", "Season"]
    rows := [[some "NBA", some "2020-21"],
             [some "NBA", some "Career"]] }

/-- The output the code actually produces on `c1_table`: the "2-team totals"
row survives because its Season does not contain the substring "season". -/
def c1_actual : StatsTable :=
  { header := ["Lg", "Season"]
    rows := [[some "NBA", some "2020-21"],
             [some "NBA", some "2-team totals"],
             [some "NBA", some "Career"]] }

/-- Claim C1 as stated is false: on the five-row table, `remove_rows` does not
return exactly the two predicted rows. -/
theorem remove_rows_c1_counterexample : remove_rows c1_table ≠ c1_claimed := by
  decide

/-- Claim C1 amended: on the five-row table, `remove_rows` returns exactly the
three rows 2020-21, "2-team totals", and Career — the non-NBA row and the
all-empty trailer row are removed, but the "2-team totals" row is kept since
its Season does not contain the substring "season". -/
theorem remove_rows_c1_amended : remove_rows c1_table = c1_actual := by
  decide

/-! ## Claim C2: Table Selector index formula -/

/-- Claim C2: for each stat category (source keys "avg" = averages,
"tot" = totals, "adv" = advanced) and each playoffs flag, the selection index
is base + (1 if playoffs else 0) with base 0/2/4, the selector returns the
candidate at that position, and in particular averages/regular is index 0,
averages/playoffs 1, totals/regular 2, advanced/playoffs 5. -/
theorem table_selector_index (tables : List StatsTable) (p : Bool) :
    table_idx "avg" p = some (0 + (if p then 1 else 0))
    ∧ table_idx "tot" p = some (2 + (if p then 1 else 0))
    ∧ table_idx "adv" p = some (4 + (if p then 1 else 0))
    ∧ select_table tables "avg" p = tables[(0 + (if p then 1 else 0) : Nat)]?
    ∧ select_table tables "tot" p = tables[(2 + (if p then 1 else 0) : Nat)]?
    ∧ select_table tables "adv" p = tables[(4 + (if p then 1 else 0) : Nat)]?
    ∧ table_idx "avg" false = some 0 ∧ table_idx "avg" true = some 1
    ∧ table_idx "tot" false = some 2 ∧ table_idx "adv" true = some 5 := by
  cases p <;>
    refine ⟨rfl, rfl, rfl, rfl, rfl, rfl, rfl, rfl, rfl, rfl⟩

/-! ## Claim C3: URL Builder pattern -/

/-- Claim C3 as stated is false at first name "al", last name "Wu", index 1:
the code uses the last name's first character as given ("W"), not its
lowercase form, so the produced URL differs from the claimed pattern. -/
theorem create_player_url_c3_counterexample :
    create_player_url "al" "Wu" 1 ≠ some (claim_url "al" "Wu" 1) := by
  decide

/-- Claim C3 amended: for every non-empty first and last name and every index
n ≥ 1, the URL Builder succeeds and returns
base/{first char of last name AS GIVEN}/{first-5-of-last}{first-2-of-first}
{n zero-padded to 2 digits}.html; short names contribute only their available
characters, and no lowercasing takes place. -/
theorem create_player_url_amended (first_name last_name : String) (n : Nat)
    (h1 : first_name ≠ "") (h2 : last_name ≠ "") (h3 : 1 ≤ n) :
    create_player_url first_name last_name n = some (amended_url first_name last_name n) := by
  obtain ⟨data⟩ := last_name
  match data with
  | [] => exact absurd rfl h2
  | c :: cs => rfl

/-- Witness for the amended claim C3 at first name "al", last name "Wu", n = 1. -/
theorem create_player_url_amended_witness :
    ("al" : String) ≠ "" ∧ ("Wu" : String) ≠ "" ∧ 1 ≤ 1
    ∧ create_player_url "al" "Wu" 1 = some (amended_url "al" "Wu" 1) :=
  ⟨by decide, by decide, Nat.le_refl 1,
    create_player_url_amended "al" "Wu" 1 (by decide) (by decide) (Nat.le_refl 1)⟩

/-! ## Claim C4: Column Filter on the seven-column example -/

/-- Claim C4: on any table whose columns are
[Season, Lg, FG, FGA, 2P, 2PA, Unnamed: 12], `remove_stats` leaves exactly the
columns [Season, FGA, 2PA], in that order. -/
theorem remove_stats_c4 (rows : List (List Cell)) :
    (remove_stats { header := ["Season", "Lg", "FG", "FGA", "2P", "2PA", "Unnamed: 12"]
                    rows := rows }).header = ["Season", "FGA", "2PA"] := by
  rfl

/-! ## Claim C5: Renderer banding -/

/-- The styles of the enumerate loop, read off at any position: starting the
loop at index `k`, the row at offset `i` is styled with `row_style (k + i)`. -/
theorem pprint_styles_from_get (k : Nat) (rows : List (List String)) (i : Nat) :
    (pprint_styles_from k rows)[i]? = (rows[i]?).map fun r => row_style (k + i) r := by
  induction rows generalizing k i with
  | nil => simp [pprint_styles_from]
  | cons r rs ih =>
    cases i with
    | zero => simp [pprint_styles_from]
    | succ j =>
      have hkj : k + 1 + j = k + (j + 1) := by omega
      simpa [pprint_styles_from, hkj] using ih (k + 1) j

/-- Claim C5: in `pprint_df`, a row whose first cell is "Career" is styled
`steel_blue1` regardless of its position parity, and every other row is styled
`bright_cyan` when its index is even and `light_cyan1` when odd. -/
theorem pprint_banding (rows : List (List String)) (i : Nat) (h : i < rows.length) :
    (rows[i].head? = some "Career" →
      (pprint_styles rows)[i]? = some RowStyle.steel_blue1)
    ∧ (rows[i].head? ≠ some "Career" →
      (pprint_styles rows)[i]? =
        some (if i % 2 = 0 then RowStyle.bright_cyan else RowStyle.light_cyan1)) := by
  have hg : (pprint_styles rows)[i]? = (rows[i]?).map fun r => row_style i r := by
    simpa using pprint_styles_from_get 0 rows i
  have hr : rows[i]? = some rows[i] := by
    simp [List.getElem?_eq_getElem h]
  constructor
  · intro hc
    rw [hg, hr]
    simp [row_style, hc]
  · intro hc
    rw [hg, hr]
    simp [row_style, hc]

/-- The four-row rendered table of claim C5: rows R0..R3, R3's first cell is
"Career". -/
def c5_rows : List (List String) :=
  [["2020-21", "26.1"], ["2021-22", "27.3"], ["2022-23", "24.0"], ["Career", "25.8"]]

/-- Witness for claim C5 on `c5_rows`: R0 and R2 get `bright_cyan`, R1 gets
`light_cyan1`, and the Career row R3 (odd index) gets `steel_blue1`. -/
theorem pprint_banding_witness :
    (pprint_styles c5_rows)[0]? = some RowStyle.bright_cyan
    ∧ (pprint_styles c5_rows)[1]? = some RowStyle.light_cyan1
    ∧ (pprint_styles c5_rows)[2]? = some RowStyle.bright_cyan
    ∧ (pprint_styles c5_rows)[3]? = some RowStyle.steel_blue1 :=
  ⟨by simpa using (pprint_banding c5_rows 0 (by decide)).2 (by decide),
   by simpa using (pprint_banding c5_rows 1 (by decide)).2 (by decide),
   by simpa using (pprint_banding c5_rows 2 (by decide)).2 (by decide),
   (pprint_banding c5_rows 3 (by decide)).1 (by decide)⟩

/-! ## Claim C6: Row Filter idempotence -/

/-- Claim C6: `remove_rows` is idempotent — applying it twice yields the same
table as applying it once. -/
theorem remove_rows_idem (t : StatsTable) :
    remove_rows (remove_rows t) = remove_rows t := by
  cases t with
  | mk hdr rows =>
    simp only [remove_rows]
    congr 1
    have h1 : ∀ a ∈ ((rows.filter (keep_lg hdr)).filter
        (keep_not_summary hdr)).filter (keep_season_present hdr), keep_lg hdr a = true :=
      fun a ha =>
        List.of_mem_filter (List.mem_of_mem_filter (List.mem_of_mem_filter ha))
    have h2 : ∀ a ∈ ((rows.filter (keep_lg hdr)).filter
        (keep_not_summary hdr)).filter (keep_season_present hdr),
        keep_not_summary hdr a = true :=
      fun a ha => List.of_mem_filter (List.mem_of_mem_filter ha)
    have h3 : ∀ a ∈ ((rows.filter (keep_lg hdr)).filter
        (keep_not_summary hdr)).filter (keep_season_present hdr),
        keep_season_present hdr a = true :=
      fun a ha => List.of_mem_filter ha
    rw [List.filter_eq_self.mpr h1, List.filter_eq_self.mpr h2,
      List.filter_eq_self.mpr h3]

/-! ## Claim C7: Column Filter frame effect -/

/-- Zipping the two projections of a list of pairs reassembles the list. -/
theorem zip_of_map_proj {α β : Type} (l : List (α × β)) :
    (l.map Prod.fst).zip (l.map Prod.snd) = l := by
  induction l with
  | nil => rfl
  | cons p ps ih =>
    cases p
    simp [ih]

/-- On an aligned row, the names of the kept (name, cell) pairs are exactly the
kept column names, in order. -/
theorem filter_zip_map_fst (hdr : List String) (row : List Cell)
    (h : row.length = hdr.length) :
    ((hdr.zip row).filter fun p => keep_col p.1).map Prod.fst = hdr.filter keep_col := by
  induction hdr generalizing row with
  | nil => simp
  | cons c cs ih =>
    cases row with
    | nil => simp at h
    | cons x xs =>
      have hx : xs.length = cs.length := by simpa using h
      by_cases hk : keep_col c = true
      · simp [List.zip_cons_cons, List.filter_cons, hk, ih xs hx]
      · simp [List.zip_cons_cons, List.filter_cons, hk, ih xs hx]

/-- Claim C7: on any table with aligned rows, `remove_stats` keeps the
retained columns in their original relative order (the new header is a
sublist of the old), keeps every row in place (same count, and each new row
is a sublist of the old row, so each retained cell is unchanged and each
retained (column, cell) association is preserved), and is a no-op when none
of the target columns are present. -/
theorem remove_stats_frame (t : StatsTable)
    (hal : ∀ r ∈ t.rows, r.length = t.header.length) :
    (remove_stats t).header.Sublist t.header
    ∧ (remove_stats t).rows.length = t.rows.length
    ∧ (∀ k, ∀ hk : k < t.rows.length, ∀ hk2 : k < (remove_stats t).rows.length,
        ((remove_stats t).rows[k]).Sublist t.rows[k]
        ∧ (remove_stats t).header.zip ((remove_stats t).rows[k])
            = (t.header.zip t.rows[k]).filter fun p => keep_col p.1)
    ∧ ((∀ c ∈ t.header, keep_col c = true) → remove_stats t = t) := by
  obtain ⟨hdr, rows⟩ := t
  simp only [remove_stats] at *
  refine ⟨List.filter_sublist hdr, by simp, ?_, ?_⟩
  · intro k hk hk2
    have hlen : rows[k].length = hdr.length := hal _ (List.getElem_mem hk)
    have hrget : (rows.map fun r =>
          ((hdr.zip r).filter fun p => keep_col p.1).map Prod.snd)[k]
        = ((hdr.zip rows[k]).filter fun p => keep_col p.1).map Prod.snd := by
      rw [List.getElem_map]
    constructor
    · rw [hrget]
      have hsub := (List.filter_sublist (p := fun p => keep_col p.1)
        (hdr.zip rows[k])).map Prod.snd
      rwa [List.map_snd_zip hdr rows[k] (le_of_eq hlen)] at hsub
    · rw [hrget, ← filter_zip_map_fst hdr rows[k] hlen, zip_of_map_proj]
  · intro hall
    have hh : hdr.filter keep_col = hdr := List.filter_eq_self.mpr hall
    have hrowfix : ∀ r ∈ rows,
        ((hdr.zip r).filter fun p => keep_col p.1).map Prod.snd = r := by
      intro r hr
      have hkeep : (hdr.zip r).filter (fun p => keep_col p.1) = hdr.zip r :=
        List.filter_eq_self.mpr fun p hp => hall p.1 (List.of_mem_zip
          (by simpa using hp)).1
      rw [hkeep, List.map_snd_zip hdr r (le_of_eq (hal r hr))]
    have hR : (rows.map fun r =>
        ((hdr.zip r).filter fun p => keep_col p.1).map Prod.snd) = rows := by
      calc (rows.map fun r => ((hdr.zip r).filter fun p => keep_col p.1).map Prod.snd)
          = rows.map id := List.map_congr_left fun r hr => hrowfix r hr
        _ = rows := List.map_id rows
    simp [hh, hR]

/-- The aligned example table of the claim C7 witness. -/
def c7_table : StatsTable :=
  { header := ["Season", "FG", "FGA"]
    rows := [[some "2020-21", some "9.8", some "19.5"],
             [some "Career", some "9.9", some "19.6"]] }

/-- Witness for claim C7 on a concrete aligned table. -/
theorem remove_stats_frame_witness :
    (remove_stats c7_table).header.Sublist c7_table.header
    ∧ (remove_stats c7_table).rows.length = c7_table.rows.length :=
  ⟨(remove_stats_frame c7_table (by decide)).1,
   (remove_stats_frame c7_table (by decide)).2.1⟩

/-! ## Claim C8: Page Fetcher status handling -/

/-- Claim C8: on any response with a status code other than 200, `get_tables`
prints that status code and exits the process (no retry: this is the outcome
of the single fetch); on a 200 response it proceeds with the extracted
tables. -/
theorem get_tables_status (page : Response) :
    (page.status_code ≠ 200 → get_tables page = .exit page.status_code)
    ∧ (page.status_code = 200 → get_tables page = .ok page.content) := by
  constructor <;> intro h <;> simp [get_tables, h]

/-- Witness for claim C8 at a 404 response and at a 200 response. -/
theorem get_tables_status_witness :
    get_tables { status_code := 404, content := [] } = .exit 404
    ∧ get_tables { status_code := 200, content := [c1_table] } = .ok [c1_table] :=
  ⟨(get_tables_status { status_code := 404, content := [] }).1 (by decide),
   (get_tables_status { status_code := 200, content := [c1_table] }).2 rfl⟩

/-! ## Claim C9: out-of-range table selection -/

/-- Claim C9: whenever the extracted table sequence is no longer than the
computed selection index, the selector yields the unhandled lookup failure
(`none`), `get_player_stats` produces nothing, and the whole invocation
renders nothing. -/
theorem table_selector_out_of_range (tables : List StatsTable) (stats : String)
    (playoffs : Bool) (i : Nat) (hidx : table_idx stats playoffs = some i)
    (hlen : tables.length ≤ i) :
    select_table tables stats playoffs = none
    ∧ get_player_stats_tables tables stats playoffs = none
    ∧ ∀ fn ln : String, run_pipeline tables fn ln stats playoffs = none := by
  have hsel : select_table tables stats playoffs = none := by
    simp [select_table, hidx, List.getElem?_eq_none hlen]
  exact ⟨hsel, by simp [get_player_stats_tables, hsel],
    fun fn ln => by simp [run_pipeline, get_player_stats_tables, hsel]⟩

/-- Witness for claim C9: requesting advanced playoff stats (index 5) from an
extraction that produced only one table. -/
theorem table_selector_out_of_range_witness :
    select_table [c1_table] "adv" true = none
    ∧ get_player_stats_tables [c1_table] "adv" true = none
    ∧ run_pipeline [c1_table] "michael" "jordan" "adv" true = none :=
  ⟨(table_selector_out_of_range [c1_table] "adv" true 5 rfl (by decide)).1,
   (table_selector_out_of_range [c1_table] "adv" true 5 rfl (by decide)).2.1,
   (table_selector_out_of_range [c1_table] "adv" true 5 rfl (by decide)).2.2
     "michael" "jordan"⟩

/-! ## Claim C10: missing League value -/

/-- Claim C10: a row whose `Lg` cell is missing fails the first predicate of
`remove_rows` (NaN is not equal to "NBA"), so the row is removed even when its
`Season` cell is present — and such a row does not match the empty-Season
predicate, whose keep-condition still holds for it. -/
theorem remove_rows_missing_league (hdr : List String) (row : List Cell)
    (h : colCell hdr row "Lg" = none) :
    keep_lg hdr row = false
    ∧ (remove_rows { header := hdr, rows := [row] }).rows = []
    ∧ (∀ s : String, colCell hdr row "Season" = some s →
        keep_season_present hdr row = true) := by
  have h1 : keep_lg hdr row = false := by
    simp [keep_lg, h]
  refine ⟨h1, ?_, fun s hs => by simp [keep_season_present, hs]⟩
  simp [remove_rows, List.filter_cons, h1]

/-- Witness for claim C10: a row with no league value but a real season is
removed by the first predicate while passing the Season-presence predicate. -/
theorem remove_rows_missing_league_witness :
    keep_lg ["Lg", "Season"] [none, some "2020-21"] = false
    ∧ (remove_rows { header := ["Lg", "Season"]
                     rows := [[none, some "2020-21"]] }).rows = []
    ∧ keep_season_present ["Lg", "Season"] [none, some "2020-21"] = true := by
  have h := remove_rows_missing_league ["Lg", "Season"] [none, some "2020-21"]
    (by decide)
  exact ⟨h.1, h.2.1, h.2.2 "2020-21" (by decide)⟩
